import Mathlib

/-!
Verification development for the multi-subject textbook question-answering
assistant (router, subject agents, equation solver, retrieval grounding).

The Python sources are shallowly embedded:

* strings are Lean `String`s; character-level work happens on `List Char`
  (`String.data`); `str.lower`, `str.strip`, `str.split`, `c.isdigit` and the
  `in` substring test are modelled on ASCII text (the repository's keyword
  tables, fixed messages and gates are all ASCII);
* the external collaborators (PDF loader, nearest-neighbour retrieval index
  and text-completion service) are opaque function parameters, exactly as the
  spec's "external interfaces" section treats them;
* Python numbers inside the equation solver are modelled as exact rational
  fractions over `ℤ`; embedding vectors are real (`ℝ`) and numpy float
  arithmetic is idealised as real arithmetic;
* Python exceptions are `Option`/`Except` values.
-/

/-! ## Python string primitives -/

/-- Whitespace class of Python (`str.split`, `str.strip`, regex `\s`). -/
def isPyWs (c : Char) : Bool :=
  c = ' ' || c = '\t' || c = '\n' || c = '\r' || c = '\x0b' || c = '\x0c'

/-- Python `str.lower` on ASCII text, character by character. -/
def pyLower (s : List Char) : List Char :=
  s.map Char.toLower

/-- Python `str.lower` packaged for `String`. -/
def pyLowerStr (s : String) : String :=
  String.mk (pyLower s.data)

/-- Python substring test `pat in s` on character lists. -/
def isSubstrOf (pat : List Char) : List Char → Bool
  | [] => pat.isEmpty
  | c :: t => pat.isPrefixOf (c :: t) || isSubstrOf pat t

/-- Python `str.strip()`: drop leading and trailing whitespace. -/
def pyStrip (s : List Char) : List Char :=
  ((s.dropWhile isPyWs).reverse.dropWhile isPyWs).reverse

/-- Helper of `pyWords`: split into maximal non-whitespace runs, tracking
whether the scan currently stands inside a word. -/
def pyWordsAux : List Char → List Char → List (List Char)
  | cur, [] => if cur.isEmpty then [] else [cur.reverse]
  | cur, c :: t =>
    if isPyWs c then
      if cur.isEmpty then pyWordsAux [] t else cur.reverse :: pyWordsAux [] t
    else
      pyWordsAux (c :: cur) t

/-- Python `str.split()` with no argument: the maximal whitespace-free runs,
empty fragments discarded. -/
def pyWords (s : List Char) : List (List Char) :=
  pyWordsAux [] s

/-- Python membership of a word in a set of words built from a split. -/
def joinStr (sep : String) (l : List String) : String :=
  String.intercalate sep l

/-! ## Conversation log (core/memory.py) -/

/-- One entry of `ChatMemory.messages`: a dict with keys type and content,
where the type is the literal User or AI. -/
structure Msg where
  mtype : String
  content : String
deriving DecidableEq, Repr

/-- ChatMemory.add_user_message appends this record. -/
def userMsg (q : String) : Msg :=
  ⟨"User", q⟩

/-- ChatMemory.add_ai_message appends this record. -/
def aiMsg (s : String) : Msg :=
  ⟨"AI", s⟩

/-! ## Subject gates (agents/base_agent.py, BaseAgent.query lines 50-91) -/

/-- Keyword allowlist of the Math gate, transcribed from the source. -/
def mathKeywords : List String :=
  ["x", "y", "z", "equation", "solve", "calculate", "value", "algebra",
   "add", "subtract", "multiply", "divide", "number", "sum", "difference",
   "product", "quotient", "fraction", "decimal", "percentage", "ratio",
   "area", "perimeter", "volume", "square", "cube", "root", "power",
   "how many", "how much", "total", "altogether", "left", "more", "less",
   "times", "divided", "plus", "minus", "equal", "greater", "smaller",
   "digit", "place value", "round", "estimate", "measure", "length",
   "width", "height", "math", "maths", "mathematics", "problem"]

/-- Generic-question phrases of the Math gate. -/
def genericWords : List String :=
  ["what is", "explain", "tell me", "describe"]

/-- Keyword allowlist of the English gate. -/
def englishKeywords : List String :=
  ["read", "reading", "grammar", "vocabulary", "writing", "poem",
   "literature", "word", "sentence", "story", "noun", "verb", "adjective",
   "paragraph"]

/-- Keyword allowlist of the EVS gate. -/
def evsKeywords : List String :=
  ["environment", "plant", "animal", "season", "pollution", "conservation",
   "resource", "nature", "earth", "water", "air", "living", "non-living"]

/-- Python `any(word in q_lower for word in kws)`. -/
def hasAnyKw (kws : List String) (q : List Char) : Bool :=
  kws.any (fun k => isSubstrOf k.data q)

/-- Math gate rejection test: no math keyword, no digit character, a generic
phrase is present, and fewer than 10 whitespace-separated words. -/
def mathGateRejects (question : String) : Bool :=
  let qL := pyLower question.data
  !hasAnyKw mathKeywords qL && !question.data.any Char.isDigit &&
    hasAnyKw genericWords qL && decide ((pyWords question.data).length < 10)

/-- English gate rejection test: no English keyword in the lowered question. -/
def englishGateRejects (question : String) : Bool :=
  !hasAnyKw englishKeywords (pyLower question.data)

/-- EVS gate rejection test: no EVS keyword in the lowered question. -/
def evsGateRejects (question : String) : Bool :=
  !hasAnyKw evsKeywords (pyLower question.data)

/-! ## Equation solver (agents/base_agent.py, BaseAgent._solve_equation)

The source scans the question with the regular expression
left group [0-9xX+-*/ws]+ then a literal equals sign then right group
[0-9+-*/ws]+, rewrites X to x and x to *x on the left group, feeds both
groups to the Python evaluator with x a SymPy symbol, and calls solve.

The evaluator is embedded for the fragment the solver can meaningfully
reach: arithmetic over integer literals and the symbol x whose value is a
linear polynomial a*x + b with exact rational coefficients. Expressions
outside that fragment (a product of two x-terms, a division by an x-term, a
symbolic or fractional exponent, floor division) make the embedded evaluator
fail, which the solver maps to the absent answer exactly as the source maps
every exception to None. Python raises SyntaxError on adjacent literals,
dangling operators, empty input and multi-digit literals with leading zeros;
the embedded parser fails on the same inputs. -/

/-- Character class of the left regex group: digits, x, X, + - * /, whitespace. -/
def isClass1 (c : Char) : Bool :=
  c.isDigit || c = 'x' || c = 'X' || c = '+' || c = '-' || c = '*' || c = '/' || isPyWs c

/-- Character class of the right regex group: as the left one but without x/X. -/
def isClass2 (c : Char) : Bool :=
  c.isDigit || c = '+' || c = '-' || c = '*' || c = '/' || isPyWs c

/-- Dropping a prefix never lengthens a list (termination helper). -/
theorem dropWhileLenLe {α : Type} (p : α → Bool) (l : List α) :
    (l.dropWhile p).length ≤ l.length := by
  induction l with
  | nil => simp [List.dropWhile]
  | cons a l ih =>
    rw [List.dropWhile]
    cases h : p a
    · simp
    · simpa using Nat.le_succ_of_le ih

/-- Fuel-driven scan of `reSearch`; every recursive call strictly shortens
the text, so any fuel above the text length is enough, and the fuel keeps
the recursion structural (kernel-reducible). -/
def reSearchGo (fuel : Nat) (s : List Char) : Option (List Char × List Char) :=
  match fuel, s with
  | 0, _ => none
  | _, [] => none
  | fuel + 1, c :: t =>
    if isClass1 c then
      match t.dropWhile isClass1 with
      | '=' :: t2 =>
        let g2 := t2.takeWhile isClass2
        if g2.isEmpty then reSearchGo fuel t2
        else some (c :: t.takeWhile isClass1, g2)
      | rest => reSearchGo fuel rest
    else
      reSearchGo fuel t

/-- Leftmost match of the equation pattern, as re.search finds it: the two
captured groups. A candidate start position is the beginning of a maximal
class-1 run; the run must be followed by an equals sign and then at least one
class-2 character. Greedy matching with backtracking inside a run cannot
succeed at a later offset of the same run, so the scan resumes after the
failed run (or after the equals sign when the right group came up empty). -/
def reSearch (s : List Char) : Option (List Char × List Char) :=
  reSearchGo (s.length + 1) s

/-- Python str.replace with the single-character pattern X and replacement x. -/
def replXtox (s : List Char) : List Char :=
  s.map (fun c => if c = 'X' then 'x' else c)

/-- Python str.replace with the single-character pattern x and replacement *x. -/
def replxStarx (s : List Char) : List Char :=
  s.flatMap (fun c => if c = 'x' then ['*', 'x'] else [c])

/-- Exact rational number as an unreduced integer fraction; the denominator
stays nonzero by construction (literals carry denominator 1, sums and
products multiply denominators, the quotient requires a nonzero divisor).
The unreduced representation keeps every operation kernel-computable;
fractions are reduced only when printed. -/
structure Frac where
  num : ℤ
  den : ℤ
deriving DecidableEq, Repr

/-- Fraction from an integer. -/
def Frac.ofInt (n : ℤ) : Frac :=
  ⟨n, 1⟩

/-- Value equality of fractions by cross multiplication. -/
def Frac.eqv (p q : Frac) : Bool :=
  p.num * q.den = q.num * p.den

/-- Zero test of a fraction. -/
def Frac.isZero (p : Frac) : Bool :=
  p.num = 0

/-- Sum of fractions. -/
def Frac.add (p q : Frac) : Frac :=
  ⟨p.num * q.den + q.num * p.den, p.den * q.den⟩

/-- Difference of fractions. -/
def Frac.sub (p q : Frac) : Frac :=
  ⟨p.num * q.den - q.num * p.den, p.den * q.den⟩

/-- Negation of a fraction. -/
def Frac.neg (p : Frac) : Frac :=
  ⟨-p.num, p.den⟩

/-- Product of fractions. -/
def Frac.mul (p q : Frac) : Frac :=
  ⟨p.num * q.num, p.den * q.den⟩

/-- Quotient of fractions; the caller guarantees a divisor of nonzero value. -/
def Frac.dvd (p q : Frac) : Frac :=
  ⟨p.num * q.den, p.den * q.num⟩

/-- Integer power of a fraction (negative exponents flip the fraction; the
caller rules out a zero base with a negative exponent). -/
def Frac.ipow (p : Frac) (k : ℤ) : Frac :=
  if 0 ≤ k then ⟨p.num ^ k.toNat, p.den ^ k.toNat⟩
  else ⟨p.den ^ (-k).toNat, p.num ^ (-k).toNat⟩

/-- Value of an evaluated expression: the linear polynomial a * x + b. -/
structure Lin where
  a : Frac
  b : Frac
deriving DecidableEq, Repr

/-- Linear polynomial from an integer constant. -/
def Lin.const (n : ℤ) : Lin :=
  ⟨Frac.ofInt 0, Frac.ofInt n⟩

/-- Addition of linear polynomials. -/
def Lin.add (p q : Lin) : Lin :=
  ⟨p.a.add q.a, p.b.add q.b⟩

/-- Subtraction of linear polynomials. -/
def Lin.sub (p q : Lin) : Lin :=
  ⟨p.a.sub q.a, p.b.sub q.b⟩

/-- Negation of a linear polynomial. -/
def Lin.neg (p : Lin) : Lin :=
  ⟨p.a.neg, p.b.neg⟩

/-- Product, defined when one factor is constant (else the result leaves the
linear fragment and the embedded evaluator fails). -/
def Lin.mul (p q : Lin) : Option Lin :=
  if p.a.isZero then some ⟨p.b.mul q.a, p.b.mul q.b⟩
  else if q.a.isZero then some ⟨q.b.mul p.a, q.b.mul p.b⟩
  else none

/-- Quotient, defined for a nonzero constant divisor; division by zero is a
Python ZeroDivisionError, hence failure. -/
def Lin.div (p q : Lin) : Option Lin :=
  if q.a.isZero && !q.b.isZero then some ⟨p.a.dvd q.b, p.b.dvd q.b⟩ else none

/-- Power, defined for constant base and constant integer-valued exponent
(the grammar only ever produces integer exponents: there are no parentheses,
so a quotient can never stand in exponent position); zero to a negative
power is a Python ZeroDivisionError, hence failure. A non-integer exponent
would leave the linear fragment, hence failure. -/
def Lin.pow (p q : Lin) : Option Lin :=
  if p.a.isZero && q.a.isZero && q.b.den = 1 then
    if p.b.isZero && q.b.num < 0 then none
    else some ⟨Frac.ofInt 0, p.b.ipow q.b.num⟩
  else none

/-- Digit run to a natural number. -/
def digitsToNat (ds : List Char) : Nat :=
  ds.foldl (fun n c => 10 * n + (c.toNat - 48)) 0

/-- Skip whitespace between tokens. -/
def skipWs (s : List Char) : List Char :=
  s.dropWhile isPyWs

/-- Parse an atom: an integer literal or the symbol x. A multi-digit decimal
literal starting with 0 and containing a nonzero digit is a Python 3
SyntaxError. -/
def parseAtom (s : List Char) : Option (Lin × List Char) :=
  match skipWs s with
  | 'x' :: t => some (⟨Frac.ofInt 1, Frac.ofInt 0⟩, t)
  | c :: t =>
    if c.isDigit then
      let ds := c :: t.takeWhile Char.isDigit
      let rest := t.dropWhile Char.isDigit
      if c = '0' && ds.any (fun d => d ≠ '0') then none
      else some (Lin.const (digitsToNat ds : ℤ), rest)
    else none
  | [] => none

mutual

/-- Parse a power: an atom optionally followed by ** and a unary expression
(the Python power operator is right-associative and binds its right operand
through unary signs). -/
def parsePow (fuel : Nat) (s : List Char) : Option (Lin × List Char) :=
  match fuel with
  | 0 => none
  | fuel + 1 =>
    match parseAtom s with
    | none => none
    | some (v, r) =>
      match skipWs r with
      | '*' :: '*' :: t =>
        match parseUnary fuel t with
        | none => none
        | some (w, r2) =>
          match Lin.pow v w with
          | none => none
          | some u => some (u, r2)
      | _ => some (v, r)

/-- Parse a unary expression: optional signs before a power. -/
def parseUnary (fuel : Nat) (s : List Char) : Option (Lin × List Char) :=
  match fuel with
  | 0 => none
  | fuel + 1 =>
    match skipWs s with
    | '-' :: t => (parseUnary fuel t).map (fun p => (p.1.neg, p.2))
    | '+' :: t => parseUnary fuel t
    | _ => parsePow fuel s

/-- Parse the multiplicative tail of a term. A doubled star after a complete
factor is the power operator and never a multiplication; floor division //
leaves the embedded fragment and fails. -/
def parseTermLoop (fuel : Nat) (v : Lin) (s : List Char) : Option (Lin × List Char) :=
  match fuel with
  | 0 => none
  | fuel + 1 =>
    match skipWs s with
    | '*' :: '*' :: _ => none
    | '*' :: t =>
      match parseUnary fuel t with
      | none => none
      | some (w, r) =>
        match Lin.mul v w with
        | none => none
        | some u => parseTermLoop fuel u r
    | '/' :: '/' :: _ => none
    | '/' :: t =>
      match parseUnary fuel t with
      | none => none
      | some (w, r) =>
        match Lin.div v w with
        | none => none
        | some u => parseTermLoop fuel u r
    | _ => some (v, s)

/-- Parse a term: a unary expression and its multiplicative tail. -/
def parseTerm (fuel : Nat) (s : List Char) : Option (Lin × List Char) :=
  match fuel with
  | 0 => none
  | fuel + 1 =>
    match parseUnary fuel s with
    | none => none
    | some (v, r) => parseTermLoop fuel v r

/-- Parse the additive tail of an expression. -/
def parseExprLoop (fuel : Nat) (v : Lin) (s : List Char) : Option (Lin × List Char) :=
  match fuel with
  | 0 => none
  | fuel + 1 =>
    match skipWs s with
    | '+' :: t =>
      match parseTerm fuel t with
      | none => none
      | some (w, r) => parseExprLoop fuel (v.add w) r
    | '-' :: t =>
      match parseTerm fuel t with
      | none => none
      | some (w, r) => parseExprLoop fuel (v.sub w) r
    | _ => some (v, s)

/-- Parse an expression: a term and its additive tail. -/
def parseExpr (fuel : Nat) (s : List Char) : Option (Lin × List Char) :=
  match fuel with
  | 0 => none
  | fuel + 1 =>
    match parseTerm fuel s with
    | none => none
    | some (v, r) => parseExprLoop fuel v r

end

/-- Python eval of an arithmetic expression string over digits, x and
+ - * / ** with x a SymPy symbol, restricted to the linear fragment; the
whole input must be consumed up to trailing whitespace. -/
def evalPyExpr (s : List Char) : Option Lin :=
  match parseExpr (2 * s.length + 4) s with
  | some (v, r) => if (skipWs r).isEmpty then some v else none
  | none => none

/-- SymPy solve on the equation e1 = e2 between linear polynomials: a single
root when the x-coefficients differ, the empty list otherwise (SymPy returns
the empty list both for a contradiction and for an identity, since the
equation object collapses to a boolean constant first). -/
def linSolve (e1 e2 : Lin) : List Frac :=
  if e1.a.eqv e2.a then [] else [(e2.b.sub e1.b).dvd (e1.a.sub e2.a)]

/-- Rendering of a SymPy rational, as Python prints it inside a list: the
fraction is reduced to lowest terms with a positive denominator first. -/
def fmtFrac (p : Frac) : String :=
  let neg : Bool := (decide (p.num < 0)) != (decide (p.den < 0))
  let n := p.num.natAbs
  let d := p.den.natAbs
  let g := Nat.gcd n d
  let n := n / g
  let d := d / g
  let sign := if neg && n ≠ 0 then "-" else ""
  if d = 1 then sign ++ toString n else sign ++ toString n ++ "/" ++ toString d

/-- BaseAgent._solve_equation: subject guard, regex scan, left-side rewrite,
evaluation of both sides, solve, and formatting; every failure collapses to
the absent answer through the blanket except. -/
def solveEquation (subject question : String) : Option String :=
  if pyLowerStr subject ≠ "math" then none
  else
    match reSearch question.data with
    | none => none
    | some (l, r) =>
      match evalPyExpr (replxStarx (replXtox l)), evalPyExpr r with
      | some e1, some e2 =>
        match linSolve e1 e2 with
        | [] => some ("No real solution found.")
        | v :: _ => some ("Solution: x = [" ++ fmtFrac v ++ "]")
      | _, _ => none

/-- Combined subject gate of BaseAgent.query: the refusal string when the
gate fires, none when the question passes. The three sequential ifs of the
source are mutually exclusive (the lowered subject equals at most one of
math, english, evs), so an if/else chain is equivalent. -/
def gateRefusal (subject question : String) : Option String :=
  if pyLowerStr subject = "math" && mathGateRejects question then
    some ("Sorry, I can only answer Math questions.")
  else if pyLowerStr subject = "english" && englishGateRejects question then
    some ("Sorry, I can only answer English questions.")
  else if pyLowerStr subject = "evs" && evsGateRejects question then
    some ("Sorry, I can only answer EVS questions.")
  else
    none

/-! ## SubjectAgent query pipeline (agents/base_agent.py, BaseAgent.query)

The retriever and the completion service are opaque parameters: `retrieve`
maps the question to the list of retrieved chunk texts (the page_content
fields, in order), and `llm` maps the prompt to the completion text or to the
exception message the source catches. -/

/-- Observable outcome of one BaseAgent.query call: the returned string, the
conversation log after the call, and whether the retriever and the
completion service were invoked. -/
structure QueryResult where
  response : String
  log : List Msg
  retrievalCalled : Bool
  llmCalled : Bool
deriving DecidableEq, Repr

/-- Fixed no-information fallback message of the retrieval-empty path. -/
def noInfoMsg (subject : String) : String :=
  "Sorry, I don't have information on this topic in the " ++ subject ++ " textbook."

/-- Fixed replacement message of the grounding heuristic. -/
def cannotFindMsg (subject : String) : String :=
  "I cannot find this information in the " ++ subject ++ " textbook."

/-- Retrieval quality test of the source: no chunks at all, or every chunk
whose stripped text is shorter than 30 characters (Python all on an empty
list is true, so the disjunction collapses, but the source spells both). -/
def docsEmptyOrShort (docs : List String) : Bool :=
  docs.isEmpty || docs.all (fun d => decide ((pyStrip d.data).length < 30))

/-- Context block: the chunk texts joined by blank lines. -/
def contextOf (docs : List String) : String :=
  joinStr "\n\n" docs

/-- History block: the last 10 log messages, each rendered type: content,
joined by newlines. -/
def historyOf (log : List Msg) : String :=
  joinStr "\n" ((log.drop (log.length - 10)).map (fun m => m.mtype ++ ": " ++ m.content))

/-- Prompt template of BaseAgent.query, transcribed from the f-string. -/
def mkPrompt (subject context history question : String) : String :=
  "\nYou are a helpful " ++ subject ++ " teacher for elementary school students.\n\n" ++
  "INSTRUCTIONS:\n" ++
  "1. Read the Textbook Context below carefully\n" ++
  "2. Answer the question using ONLY information from the Textbook Context\n" ++
  "3. If you find the answer in the context, explain it clearly in simple language\n" ++
  "4. If the exact answer is NOT in the context, say: \"I cannot find this information in the textbook.\"\n" ++
  "5. Use examples from the textbook when available\n" ++
  "6. Keep your answer suitable for elementary students\n\n" ++
  "Textbook Context:\n" ++ context ++ "\n\n" ++
  "Chat History:\n" ++ history ++ "\n\n" ++
  "Student Question:\n" ++ question ++ "\n\n" ++
  "Your Answer:\n"

/-- Set of meaningful words of a text: the distinct lowered whitespace-split
words longer than 3 characters (Python set comprehension; a list without
duplicates stands for the set, first occurrences kept). -/
def longWords (s : List Char) : List (List Char) :=
  ((pyWords (pyLower s)).filter (fun w => decide (w.length > 3))).dedup

/-- Grounding heuristic of BaseAgent.query (lines 163-180): a response longer
than 400 characters that does not already contain cannot find is replaced by
the fixed message when both word sets are nonempty and the overlap count is
below a tenth of the response word count. The source compares Python floats;
overlap / count < 0.10 is modelled as the exact comparison 10 * overlap <
count, which agrees with the float comparison on every feasible word count. -/
def groundResponse (subject : String) (context resp : List Char) : List Char :=
  if resp.length > 400 && !isSubstrOf ("cannot find").data (pyLower resp) then
    let rw := longWords resp
    let cw := longWords context
    if !rw.isEmpty && !cw.isEmpty then
      if 10 * (rw.filter (fun w => cw.contains w)).length < rw.length then
        (cannotFindMsg subject).data
      else resp
    else resp
  else resp

/-- Gate-refusal outcome: the source records the refusal as an AI message and
returns it without touching retriever or completion service. -/
def refusalResult (refusal : String) (log0 : List Msg) (q : String) : QueryResult :=
  ⟨refusal, log0 ++ [userMsg q] ++ [aiMsg refusal], false, false⟩

/-- BaseAgent.query: user message recorded, subject gate, equation shortcut,
retrieval with the too-short fallback, prompt synthesis, completion call with
exception capture, grounding heuristic, AI message recorded. The equation
shortcut tests Python truthiness of the solver result; the solver only ever
produces nonempty strings, so the some-case always returns. -/
def query (subject : String) (retrieve : String → List String)
    (llm : String → Except String String) (log0 : List Msg) (question : String) :
    QueryResult :=
  let log1 := log0 ++ [userMsg question]
  match gateRefusal subject question with
  | some refusal => refusalResult refusal log0 question
  | none =>
    match solveEquation subject question with
    | some sol => ⟨sol, log1 ++ [aiMsg sol], false, false⟩
    | none =>
      let docs := retrieve question
      if docsEmptyOrShort docs then
        let ans := noInfoMsg subject
        ⟨ans, log1 ++ [aiMsg ans], true, false⟩
      else
        let context := contextOf docs
        let prompt := mkPrompt subject context (historyOf log1) question
        let resp :=
          match llm prompt with
          | .ok r => String.mk (groundResponse subject context.data (pyStrip r.data))
          | .error e => "Error from model: " ++ e
        ⟨resp, log1 ++ [aiMsg resp], true, true⟩

/-! ## Router question splitting (agents/meta_agent.py, MetaAgent._split_questions)

The split pattern is a question mark, the word and between word boundaries,
or a newline. Word boundaries of the regex are modelled with the ASCII word
characters (letters, digits, underscore); every separator the split itself
produces is a non-word character, so tracking the previous character of the
original text is enough. -/

/-- ASCII word character of the regex word-boundary class. -/
def isWordChar (c : Char) : Bool :=
  c.isAlpha || c.isDigit || c = '_'

/-- Fuel-driven scan of `reSplit`: prev is the character just before the
current scan position in the original text (none at the start), acc the
reversed characters of the fragment being built. Every recursive call
strictly shortens the text, so any fuel above the text length is enough,
and the fuel keeps the recursion structural (kernel-reducible). -/
def reSplitGo (fuel : Nat) (prev : Option Char) (acc : List Char) (s : List Char) :
    List (List Char) :=
  match fuel, s with
  | 0, _ => [acc.reverse]
  | _, [] => [acc.reverse]
  | fuel + 1, '?' :: t => acc.reverse :: reSplitGo fuel (some '?') [] t
  | fuel + 1, '\n' :: t => acc.reverse :: reSplitGo fuel (some '\n') [] t
  | fuel + 1, 'a' :: 'n' :: 'd' :: t =>
    if (prev.map isWordChar).getD false = false &&
        (t.head?.map isWordChar).getD false = false then
      acc.reverse :: reSplitGo fuel (some 'd') [] t
    else
      reSplitGo fuel (some 'a') ('a' :: acc) ('n' :: 'd' :: t)
  | fuel + 1, c :: t => reSplitGo fuel (some c) (c :: acc) t

/-- Python re.split on the pattern question mark, the word and inside word
boundaries, or newline. -/
def reSplit (s : List Char) : List (List Char) :=
  reSplitGo (s.length + 1) none [] s

/-- MetaAgent._split_questions: split, strip each fragment, keep the nonempty
ones. -/
def splitQuestions (text : String) : List String :=
  ((reSplit text.data).map pyStrip).filterMap
    (fun p => if p.isEmpty then none else some (String.mk p))

/-! ## Router subject classification (agents/meta_agent.py, MetaAgent._find_subject)

The embedding service is an opaque parameter embed from text to a real
vector; numpy float arithmetic is idealised as real arithmetic, and the Lean
convention that division by zero yields zero stands in for the numpy warning
value on zero-norm vectors. -/

/-- Subject reference texts of the MetaAgent constructor, in dict insertion
order. -/
def subjectTexts : List (String × String) :=
  [("Math", "algebra, geometry, arithmetic, fractions, equations, problem solving, numbers, calculation, formulas"),
   ("English", "grammar, vocabulary, reading, writing, comprehension, literature, stories, poems, sentences"),
   ("EVS", "environment, plants, animals, seasons, weather, community, safety, nature, conservation, resources")]

/-- Dot product of two embedding vectors (numpy dot on equal-length arrays;
zipWith truncates at the shorter vector). -/
def dotL (u v : List ℝ) : ℝ :=
  (List.zipWith (fun a b => a * b) u v).sum

/-- Euclidean norm of an embedding vector (numpy linalg.norm). -/
noncomputable def normL (u : List ℝ) : ℝ :=
  Real.sqrt (dotL u u)

/-- Cosine similarity as the source computes it: dot over product of norms. -/
noncomputable def cosSim (u v : List ℝ) : ℝ :=
  dotL u v / (normL u * normL v)

/-- Python max over the similarity dict with key access: the first entry of
maximal value in insertion order (a later entry replaces the current best
only when strictly greater). -/
noncomputable def argmaxFirst (l : List (String × ℝ)) : String × ℝ :=
  match l with
  | [] => ("", 0)
  | h :: t => t.foldl (fun best p => if p.2 > best.2 then p else best) h

/-- Keyword override of the Math branch. -/
def mathOverride (q : String) : Bool :=
  let qL := pyLower q.data
  isSubstrOf ("math").data qL || isSubstrOf ("solve").data qL ||
    isSubstrOf ("equation").data qL || isSubstrOf ("calculate").data qL

/-- Keyword override of the English branch. -/
def englishOverride (q : String) : Bool :=
  let qL := pyLower q.data
  isSubstrOf ("english").data qL || isSubstrOf ("read").data qL ||
    isSubstrOf ("grammar").data qL || isSubstrOf ("literature").data qL

/-- Keyword override of the EVS branch. -/
def evsOverride (q : String) : Bool :=
  let qL := pyLower q.data
  isSubstrOf ("evs").data qL || isSubstrOf ("plant").data qL ||
    isSubstrOf ("environment").data qL || isSubstrOf ("season").data qL

/-- MetaAgent._find_subject: embed the sub-question, compute the cosine
similarity against each subject vector (the constructor embeds the three
reference texts), take the first argmax, then apply the keyword overrides
with priority Math, English, EVS. The low-confidence branch of the source
only logs and returns the same pair as the final return, so both collapse
to one expression. -/
noncomputable def findSubject (embed : String → List ℝ) (question : String) :
    String × ℝ :=
  let qvec := embed question
  let sims := subjectTexts.map (fun p => (p.1, cosSim qvec (embed p.2)))
  let best := argmaxFirst sims
  if mathOverride question then ("Math", 1)
  else if englishOverride question then ("English", 1)
  else if evsOverride question then ("EVS", 1)
  else best

/-! ## Router dispatch (agents/meta_agent.py, MetaAgent.route)

For every sub-question whose classified subject has a registered agent the
source constructs a brand-new BaseAgent from the template's pdf_path and llm
with a fresh memory. The BaseAgent constructor loads the PDF, raises
ValueError when it yields no pages, and calls build_vector_store, which
re-embeds the chunks and persists the FAISS index under
persist_root/subject/faiss_index (core/vectorstore.py). These externally
visible effects are recorded in an event trace; the query call's use of the
retriever and the completion service is appended to the same trace. -/

/-- Externally visible effect of the routing loop. -/
inductive Event
  | loadPdf (path : String)
  | buildIndex (subject : String)
  | saveIndex (path : String)
  | search (subject : String)
  | complete (subject : String)
deriving DecidableEq, Repr

/-- Registered agent template: the fields of the session agent that route
reuses when rebuilding a fresh BaseAgent. -/
structure AgentTmpl where
  pdfPath : String
deriving DecidableEq, Repr

/-- Persisted index path of build_vector_store for a subject, with the
default persist root. -/
def indexPath (subject : String) : String :=
  "./db/" ++ subject ++ "/faiss_index"

/-- Constructor effects of BaseAgent plus build_vector_store: load the PDF,
build and persist the index. -/
def initEvents (subject : String) (tmpl : AgentTmpl) : List Event :=
  [Event.loadPdf tmpl.pdfPath, Event.buildIndex subject,
   Event.saveIndex (indexPath subject)]

/-- Collaborator-call events of one query run. -/
def queryEvents (subject : String) (r : QueryResult) : List Event :=
  (if r.retrievalCalled then [Event.search subject] else []) ++
    (if r.llmCalled then [Event.complete subject] else [])

/-- Confidence tier marker of the combined answer (the three emoji of the
source, named). -/
noncomputable def confTier (c : ℝ) : String :=
  if c > 0.7 then "high" else if c > 0.5 then "medium" else "low"

/-- Dictionary lookup agents[subject]. -/
def lookupAgent (agents : List (String × AgentTmpl)) (subject : String) :
    Option AgentTmpl :=
  (agents.find? (fun p => p.1 = subject)).map (fun p => p.2)

/-- Routing loop over the sub-question list: per sub-question classify, check
registration, rebuild a fresh agent (PDF load may raise ValueError, which
propagates), query with an empty fresh memory, and collect the annotated
answer; the error entry for an unregistered subject adds no events. Display
detail of the annotation elided from the model: the emoji glyphs stand as
the words high/medium/low, and the percent rendering of the float confidence
is dropped (no claim concerns the percent text). -/
noncomputable def routeList (classify : String → String × ℝ)
    (agents : List (String × AgentTmpl)) (loader : String → List String)
    (retrieve : String → String → List String)
    (llm : String → String → Except String String) :
    List String → Except String (List String × List Event)
  | [] => .ok ([], [])
  | subQ :: rest =>
    let subject := (classify subQ).1
    let confidence := (classify subQ).2
    match lookupAgent agents subject with
    | none =>
      match routeList classify agents loader retrieve llm rest with
      | .ok (answers, events) =>
        .ok (("**Error**: " ++ subject ++ " subject not available. Please upload the PDF.") :: answers, events)
      | .error e => .error e
    | some tmpl =>
      if (loader tmpl.pdfPath).isEmpty then
        .error ("No documents found in " ++ tmpl.pdfPath)
      else
        let qr := query subject (retrieve subject) (llm subject) [] subQ
        let ans := confTier confidence ++ " **" ++ subject ++ " Answer**:\n" ++ qr.response
        match routeList classify agents loader retrieve llm rest with
        | .ok (answers, events) =>
          .ok (ans :: answers, initEvents subject tmpl ++ queryEvents subject qr ++ events)
        | .error e => .error e

/-- MetaAgent.route: split the question, run the routing loop, join the
answers with the visible separator. -/
noncomputable def route (classify : String → String × ℝ)
    (agents : List (String × AgentTmpl)) (loader : String → List String)
    (retrieve : String → String → List String)
    (llm : String → String → Except String String) (question : String) :
    Except String (String × List Event) :=
  match routeList classify agents loader retrieve llm (splitQuestions question) with
  | .ok (answers, events) => .ok (joinStr "\n\n---\n\n" answers, events)
  | .error e => .error e

/-- Number of index persist events in a trace. -/
def saveCount (events : List Event) : Nat :=
  (events.filter (fun e => match e with | Event.saveIndex _ => true | _ => false)).length

/-- Number of PDF load events in a trace. -/
def loadCount (events : List Event) : Nat :=
  (events.filter (fun e => match e with | Event.loadPdf _ => true | _ => false)).length

/-- Number of index build events in a trace. -/
def buildCount (events : List Event) : Nat :=
  (events.filter (fun e => match e with | Event.buildIndex _ => true | _ => false)).length

/-- Sub-questions of a routed question whose classified subject has a
registered agent. -/
def registeredSubQs (classify : String → String × ℝ)
    (agents : List (String × AgentTmpl)) (question : String) : List String :=
  (splitQuestions question).filter
    (fun sq => (lookupAgent agents (classify sq).1).isSome)

/-! ## Concrete collaborator instances

Closed witnesses and counterexamples instantiate the opaque collaborators
with the following concrete functions. -/

/-- Retriever returning no chunks. -/
def retrEmpty : String → List String :=
  fun _ => []

/-- Retriever returning one chunk of 38 characters none of whose words is
longer than 3 characters. -/
def retrShortWords : String → List String :=
  fun _ => ["ab cd ef gh ij kl mn op qr st uv xy ab"]

/-- Retriever returning one chunk of 39 characters made of one word longer
than 3 characters. -/
def retrReading : String → List String :=
  fun _ => ["reading reading reading reading reading"]

/-- Completion response of 401 identical characters (no whitespace). -/
def longAStr : String :=
  String.mk (List.replicate 401 'a')

/-- Completion service answering the long ungrounded response. -/
def llmLongA : String → Except String String :=
  fun _ => .ok longAStr

/-- Completion service answering a short disclaiming response. -/
def llmDisclaim : String → Except String String :=
  fun _ => .ok "sadly I cannot find it anywhere in my sources today"

/-- Completion service answering a short plain response. -/
def llmPlain : String → Except String String :=
  fun _ => .ok "hi"

/-- Embedding service mapping every text to the vector (1). -/
def embedOne : String → List ℝ :=
  fun _ => [1]

/-- Embedding service mapping one designated question to (-1) and every
other text, in particular the three subject reference texts, to (1): the
cosine similarity of the question against every subject vector is then -1. -/
def embedOpp : String → List ℝ :=
  fun s => if s = "strange" then [-1] else [1]

/-- Purely keyword-driven classifier used to instantiate the routing loop in
closed statements. -/
def classifyKw : String → String × ℝ :=
  fun q =>
    if mathOverride q then ("Math", 1)
    else if englishOverride q then ("English", 1)
    else ("EVS", 1)

/-- Two registered agent templates, as the session registry holds them. -/
def agentsME : List (String × AgentTmpl) :=
  [("Math", ⟨"./textbooks/math.pdf"⟩), ("English", ⟨"./textbooks/english.pdf"⟩)]

/-- PDF loader yielding one page for every path. -/
def loaderOne : String → List String :=
  fun _ => ["page"]

/-- Per-subject retriever returning no chunks. -/
def retr2Empty : String → String → List String :=
  fun _ _ => []

/-- Per-subject completion service answering a short plain response. -/
def llm2Plain : String → String → Except String String :=
  fun _ _ => .ok "ans"

/-! ## Helper lemmas -/

/-- Rebuilding a string from its characters is the identity. -/
theorem strMkData (s : String) : String.mk s.data = s :=
  rfl

/-- Nonempty stripped fragments give nonempty strings. -/
theorem splitFragmentsNonempty (text : String) (p : String)
    (hp : p ∈ splitQuestions text) : p ≠ "" := by
  unfold splitQuestions at hp
  obtain ⟨a, _, hfa⟩ := List.mem_filterMap.mp hp
  by_cases h : a.isEmpty
  · simp [h] at hfa
  · simp [h] at hfa
    intro he
    rw [he] at hfa
    have : a = [] := congrArg String.data hfa
    simp [this] at h

/-! ## Claim theorems -/

/-- C5: the router's question splitting divides the input at every question
mark, standalone word and, and newline, trims each fragment and discards the
empty ones; splitting the sentence What is 2+2 and explain photosynthesis
yields exactly the two sub-questions in order, and every produced fragment is
nonempty. -/
theorem splitQuestionsSpec :
    splitQuestions "What is 2+2 and explain photosynthesis" =
      ["What is 2+2", "explain photosynthesis"] ∧
    ∀ text p, p ∈ splitQuestions text → p ≠ "" :=
  ⟨by decide, splitFragmentsNonempty⟩

/-- C5 witness: the second conjunct applied at a concrete input. -/
theorem splitQuestionsSpecWitness :
    ("ab" : String) ∈ splitQuestions "ab" ∧ ("ab" : String) ≠ "" :=
  ⟨by decide, splitQuestionsSpec.2 "ab" "ab" (by decide)⟩

/-- C3: the solver answers Solution: x = [5] on 2x = 10 (the bare
coefficient 2x is rewritten to 2*x before evaluation), answers absent on
hello world, which contains no equation pattern, and answers absent for
every question when the subject is not Math. -/
theorem equationSolverSpec :
    solveEquation "Math" "2x = 10" = some ("Solution: x = [5]") ∧
    solveEquation "Math" "hello world" = none ∧
    ∀ subject question, pyLowerStr subject ≠ "math" →
      solveEquation subject question = none := by
  refine ⟨by decide, by decide, fun s q h => ?_⟩
  unfold solveEquation
  simp [h]

/-- C3 witness: the universally quantified conjunct applied at a concrete
non-Math subject. -/
theorem equationSolverSpecWitness :
    pyLowerStr "English" ≠ "math" ∧ solveEquation "English" "2x = 10" = none :=
  ⟨by decide, equationSolverSpec.2.2 "English" "2x = 10" (by decide)⟩

/-- C2 counterexample: on x = x the solver returns absent, not the string
No real solution found.: the regex captures the left group x (with a
trailing space), the bare-coefficient rewrite turns it into *x, and Python
eval raises a SyntaxError that the blanket except converts to None. -/
theorem xEqXCounterexample :
    solveEquation "Math" "x = x" = none ∧
    solveEquation "Math" "x = x" ≠ some ("No real solution found.") := by
  decide

/-- C2 (amended): a detected equation whose two sides evaluate successfully
and whose solution set is empty produces No real solution found.; the
specific input x = x instead fails evaluation and produces absent. -/
theorem noSolutionMessage (subject question : String) (l r : List Char)
    (e1 e2 : Lin)
    (hsub : pyLowerStr subject = "math")
    (hre : reSearch question.data = some (l, r))
    (hl : evalPyExpr (replxStarx (replXtox l)) = some e1)
    (hr : evalPyExpr r = some e2)
    (hno : linSolve e1 e2 = []) :
    solveEquation subject question = some ("No real solution found.") := by
  unfold solveEquation
  simp [hsub, hre, hl, hr, hno]

/-- C2 witness: the amended theorem applied at the concrete unsolvable
equation 0x = 5. -/
theorem noSolutionMessageWitness :
    pyLowerStr "Math" = "math" ∧
    solveEquation "Math" "0x = 5" = some ("No real solution found.") :=
  ⟨by decide,
   noSolutionMessage "Math" "0x = 5" ("0x ").data (" 5").data
     ⟨⟨0, 1⟩, ⟨0, 1⟩⟩ ⟨⟨0, 1⟩, ⟨5, 1⟩⟩
     (by decide) (by decide) (by decide) (by decide) (by decide)⟩

/-- C1: for each of the three gated subjects, a question failing the
subject's keyword gate makes query return exactly the fixed refusal string,
append exactly one Assistant message after the recorded user message, and
leave both the retriever and the completion service uninvoked (the
refusalResult record carries the full observable outcome). -/
theorem gateRefusalNoCollaborators (q : String) (retrieve : String → List String)
    (llm : String → Except String String) (log0 : List Msg) :
    (mathGateRejects q = true →
      query "Math" retrieve llm log0 q =
        refusalResult ("Sorry, I can only answer Math questions.") log0 q) ∧
    (englishGateRejects q = true →
      query "English" retrieve llm log0 q =
        refusalResult ("Sorry, I can only answer English questions.") log0 q) ∧
    (evsGateRejects q = true →
      query "EVS" retrieve llm log0 q =
        refusalResult ("Sorry, I can only answer EVS questions.") log0 q) := by
  have hm : (decide (pyLowerStr "Math" = "math")) = true := by decide
  have he1 : (decide (pyLowerStr "English" = "math")) = false := by decide
  have he2 : (decide (pyLowerStr "English" = "english")) = true := by decide
  have hv1 : (decide (pyLowerStr "EVS" = "math")) = false := by decide
  have hv2 : (decide (pyLowerStr "EVS" = "english")) = false := by decide
  have hv3 : (decide (pyLowerStr "EVS" = "evs")) = true := by decide
  refine ⟨fun h => ?_, fun h => ?_, fun h => ?_⟩
  · unfold query gateRefusal
    simp [hm, h]
  · unfold query gateRefusal
    simp [he1, he2, h]
  · unfold query gateRefusal
    simp [hv1, hv2, hv3, h]

/-- C1 witness: the three gate branches applied at concrete failing
questions. -/
theorem gateRefusalNoCollaboratorsWitness :
    mathGateRejects "what is love" = true ∧
    englishGateRejects "hello" = true ∧
    evsGateRejects "hello" = true ∧
    query "Math" retrEmpty llmPlain [] "what is love" =
      refusalResult ("Sorry, I can only answer Math questions.") [] "what is love" ∧
    query "English" retrEmpty llmPlain [] "hello" =
      refusalResult ("Sorry, I can only answer English questions.") [] "hello" ∧
    query "EVS" retrEmpty llmPlain [] "hello" =
      refusalResult ("Sorry, I can only answer EVS questions.") [] "hello" :=
  ⟨by decide, by decide, by decide,
   (gateRefusalNoCollaborators "what is love" retrEmpty llmPlain []).1 (by decide),
   (gateRefusalNoCollaborators "hello" retrEmpty llmPlain []).2.1 (by decide),
   (gateRefusalNoCollaborators "hello" retrEmpty llmPlain []).2.2 (by decide)⟩

/-- C8: when the question passes the gate and the equation shortcut, and
retrieval yields no chunks or only chunks whose stripped text is shorter
than 30 characters, query returns the fixed no-information message, records
it as the one Assistant message, invokes the retriever but never the
completion service, and raises no error (the embedding is a total
function). -/
theorem retrievalFallback (subject question : String)
    (retrieve : String → List String) (llm : String → Except String String)
    (log0 : List Msg)
    (hg : gateRefusal subject question = none)
    (he : solveEquation subject question = none)
    (hd : docsEmptyOrShort (retrieve question) = true) :
    query subject retrieve llm log0 question =
      ⟨noInfoMsg subject,
       log0 ++ [userMsg question] ++ [aiMsg (noInfoMsg subject)], true, false⟩ := by
  unfold query
  simp [hg, he, hd]

/-- C8 witness: the fallback applied with an empty retriever at a concrete
gate-passing question. -/
theorem retrievalFallbackWitness :
    gateRefusal "English" "read" = none ∧
    solveEquation "English" "read" = none ∧
    docsEmptyOrShort (retrEmpty "read") = true ∧
    query "English" retrEmpty llmPlain [] "read" =
      ⟨noInfoMsg "English",
       [] ++ [userMsg "read"] ++ [aiMsg (noInfoMsg "English")], true, false⟩ :=
  ⟨by decide, by decide, by decide,
   retrievalFallback "English" "read" retrEmpty llmPlain []
     (by decide) (by decide) (by decide)⟩

/-- Solution strings of the solver never coincide with the Math gate
refusal: the two strings differ within their first four characters. -/
theorem solutionNeRefusal (t : String) :
    ("Solution: x = [" ++ t) ≠ "Sorry, I can only answer Math questions." := by
  intro h
  have hd := congrArg String.data h
  rw [String.data_append] at hd
  have h4 := congrArg (List.take 4) hd
  rw [List.take_append_of_le_length (by decide)] at h4
  exact absurd h4 (by decide)

/-- Every string the equation solver can return differs from the Math gate
refusal message. -/
theorem solveNeMathRefusal (subject question s : String)
    (h : solveEquation subject question = some s) :
    s ≠ "Sorry, I can only answer Math questions." := by
  unfold solveEquation at h
  split at h
  · simp at h
  · split at h
    · simp at h
    · split at h
      · split at h
        · have hs := Option.some.inj h
          rw [← hs]
          decide
        · have hs := Option.some.inj h
          rw [← hs, String.append_assoc]
          exact solutionNeRefusal _
      · simp at h

/-- C10: the Math gate matches its keywords as substrings and its keyword
list contains the single letters x, y, z; a question whose lowered text
contains x, y or z, or any digit, can never take the Math refusal branch of
query (no observable refusal outcome), and conversely a question that does
take the branch contains none of those letters, no digit, matches a generic
phrase and has fewer than 10 words. -/
theorem mathGateReachability (q : String) :
    ((isSubstrOf ("x").data (pyLower q.data) ||
        isSubstrOf ("y").data (pyLower q.data) ||
        isSubstrOf ("z").data (pyLower q.data) ||
        q.data.any Char.isDigit) = true →
      mathGateRejects q = false ∧
      ∀ (retrieve : String → List String) (llm : String → Except String String)
        (log0 : List Msg),
        query "Math" retrieve llm log0 q ≠
          refusalResult ("Sorry, I can only answer Math questions.") log0 q) ∧
    (mathGateRejects q = true →
      isSubstrOf ("x").data (pyLower q.data) = false ∧
      isSubstrOf ("y").data (pyLower q.data) = false ∧
      isSubstrOf ("z").data (pyLower q.data) = false ∧
      q.data.any Char.isDigit = false ∧
      hasAnyKw genericWords (pyLower q.data) = true ∧
      (pyWords q.data).length < 10) := by
  constructor
  · intro hx
    have hA : mathGateRejects q = false := by
      simp only [Bool.or_eq_true] at hx
      rcases hx with ((hx | hx) | hx) | hx
      · have hk : hasAnyKw mathKeywords (pyLower q.data) = true :=
          List.any_eq_true.mpr ⟨"x", by decide, hx⟩
        simp [mathGateRejects, hk]
      · have hk : hasAnyKw mathKeywords (pyLower q.data) = true :=
          List.any_eq_true.mpr ⟨"y", by decide, hx⟩
        simp [mathGateRejects, hk]
      · have hk : hasAnyKw mathKeywords (pyLower q.data) = true :=
          List.any_eq_true.mpr ⟨"z", by decide, hx⟩
        simp [mathGateRejects, hk]
      · simp [mathGateRejects, hx]
    refine ⟨hA, fun retrieve llm log0 hEq => ?_⟩
    have hg : gateRefusal "Math" q = none := by
      have hq1 : (decide (pyLowerStr "Math" = "english")) = false := by decide
      have hq2 : (decide (pyLowerStr "Math" = "evs")) = false := by decide
      unfold gateRefusal
      simp [hA, hq1, hq2]
    unfold query at hEq
    rw [hg] at hEq
    rcases hs : solveEquation "Math" q with _ | s <;> rw [hs] at hEq
    · cases hdoc : docsEmptyOrShort (retrieve q) <;>
        simp [hdoc, refusalResult, QueryResult.mk.injEq] at hEq
    · simp [refusalResult, QueryResult.mk.injEq] at hEq
      exact solveNeMathRefusal "Math" q s hs hEq.1
  · intro h
    simp only [mathGateRejects, Bool.and_eq_true, Bool.not_eq_true',
      decide_eq_true_eq] at h
    obtain ⟨⟨⟨hkw, hdig⟩, hgen⟩, hlen⟩ := h
    have hx : ∀ k, k ∈ mathKeywords → isSubstrOf k.data (pyLower q.data) = false := by
      intro k hk
      simpa using (List.any_eq_false.mp hkw) k hk
    exact ⟨hx "x" (by decide), hx "y" (by decide), hx "z" (by decide),
      hdig, hgen, hlen⟩

/-- C10 witness: both directions applied at concrete questions (a question
containing x, and the gate-rejected generic question). -/
theorem mathGateReachabilityWitness :
    (isSubstrOf ("x").data (pyLower ("explain taxes").data) ||
        isSubstrOf ("y").data (pyLower ("explain taxes").data) ||
        isSubstrOf ("z").data (pyLower ("explain taxes").data) ||
        ("explain taxes").data.any Char.isDigit) = true ∧
    mathGateRejects "explain taxes" = false ∧
    query "Math" retrEmpty llmPlain [] "explain taxes" ≠
      refusalResult ("Sorry, I can only answer Math questions.") [] "explain taxes" ∧
    mathGateRejects "what is love" = true ∧
    isSubstrOf ("x").data (pyLower ("what is love").data) = false ∧
    hasAnyKw genericWords (pyLower ("what is love").data) = true :=
  ⟨by decide,
   ((mathGateReachability "explain taxes").1 (by decide)).1,
   ((mathGateReachability "explain taxes").1 (by decide)).2 retrEmpty llmPlain [],
   by decide,
   ((mathGateReachability "what is love").2 (by decide)).1,
   ((mathGateReachability "what is love").2 (by decide)).2.2.2.2.1⟩

set_option maxRecDepth 4000 in
/-- C4 counterexample: a 401-character response with zero overlap against a
context whose words are all at most 3 characters long is returned unchanged:
the source skips the overlap check whenever the context word set is empty,
so the claimed replacement does not happen although the response is longer
than 400 characters, lacks cannot find, and its overlap share is below a
tenth. -/
theorem groundingSkipCounterexample :
    (pyStrip longAStr.data).length > 400 ∧
    isSubstrOf ("cannot find").data (pyLower (pyStrip longAStr.data)) = false ∧
    10 * ((longWords (pyStrip longAStr.data)).filter
        (fun w => (longWords (contextOf (retrShortWords "read")).data).contains w)).length <
      (longWords (pyStrip longAStr.data)).length ∧
    (query "English" retrShortWords llmLongA [] "read").response = longAStr ∧
    longAStr ≠ cannotFindMsg "English" := by
  decide

/-- C4 (amended): when the run reaches the completion call, a response whose
stripped text is longer than 400 characters and free of cannot find is
replaced by the fixed message provided the context contains at least one
word longer than 3 characters and the overlap count stays below a tenth of
the response word count; and a response already containing cannot find is
never rewritten by the heuristic (it is returned exactly as stripped). -/
theorem groundingReplacement (subject question : String)
    (retrieve : String → List String) (llm : String → Except String String)
    (log0 : List Msg) (r : String)
    (hg : gateRefusal subject question = none)
    (he : solveEquation subject question = none)
    (hd : docsEmptyOrShort (retrieve question) = false)
    (hllm : llm (mkPrompt subject (contextOf (retrieve question))
        (historyOf (log0 ++ [userMsg question])) question) = .ok r) :
    ((pyStrip r.data).length > 400 →
      isSubstrOf ("cannot find").data (pyLower (pyStrip r.data)) = false →
      longWords (contextOf (retrieve question)).data ≠ [] →
      10 * ((longWords (pyStrip r.data)).filter
          (fun w => (longWords (contextOf (retrieve question)).data).contains w)).length <
        (longWords (pyStrip r.data)).length →
      (query subject retrieve llm log0 question).response = cannotFindMsg subject) ∧
    (isSubstrOf ("cannot find").data (pyLower (pyStrip r.data)) = true →
      (query subject retrieve llm log0 question).response = String.mk (pyStrip r.data)) := by
  have hresp : (query subject retrieve llm log0 question).response =
      String.mk (groundResponse subject (contextOf (retrieve question)).data
        (pyStrip r.data)) := by
    unfold query
    simp [hg, he, hd, hllm]
  constructor
  · intro h1 h2 h3 h4
    have hrw : longWords (pyStrip r.data) ≠ [] := by
      intro hnil
      rw [hnil] at h4
      simp at h4
    rw [hresp]
    unfold groundResponse
    simp [decide_eq_true h1, h2, h3, hrw]
    have h4x : 10 * (List.filter
        (fun w => decide (w ∈ longWords (contextOf (retrieve question)).data))
        (longWords (pyStrip r.data))).length <
        (longWords (pyStrip r.data)).length := by
      simpa using h4
    simp [h4x, strMkData]
  · intro h2
    rw [hresp]
    unfold groundResponse
    simp [h2]

set_option maxRecDepth 4000 in
/-- C4 witness: the replacement applied against a context with a long word
(401-character ungrounded response becomes the fixed message) and the
exemption applied to a disclaiming response (returned as stripped). -/
theorem groundingReplacementWitness :
    (query "English" retrReading llmLongA [] "read").response =
      cannotFindMsg "English" ∧
    (query "English" retrReading llmDisclaim [] "read").response =
      String.mk (pyStrip ("sadly I cannot find it anywhere in my sources today").data) :=
  ⟨(groundingReplacement "English" "read" retrReading llmLongA [] longAStr
      (by decide) (by decide) (by decide) rfl).1
      (by decide) (by decide) (by decide) (by decide),
   (groundingReplacement "English" "read" retrReading llmDisclaim []
      "sadly I cannot find it anywhere in my sources today"
      (by decide) (by decide) (by decide) rfl).2 (by decide)⟩

/-- C6: for any sub-question containing solve (or math, equation,
calculate), classification returns the pair (Math, 1) whatever the embedding
service answers, and two runs with different embedding functions agree - the
keyword override takes precedence over the embedding argmax. -/
theorem keywordOverrideMath (q : String) (h : mathOverride q = true) :
    ∀ e1 e2 : String → List ℝ,
      findSubject e1 q = ("Math", 1) ∧ findSubject e1 q = findSubject e2 q := by
  intro e1 e2
  constructor
  · unfold findSubject
    simp [h]
  · unfold findSubject
    simp [h]

/-- C6 witness: the override applied to the word solve under two different
embedding services. -/
theorem keywordOverrideMathWitness :
    mathOverride "solve" = true ∧
    findSubject embedOne "solve" = ("Math", 1) ∧
    findSubject embedOne "solve" = findSubject embedOpp "solve" :=
  ⟨by decide,
   (keywordOverrideMath "solve" (by decide) embedOne embedOpp).1,
   (keywordOverrideMath "solve" (by decide) embedOne embedOpp).2⟩

/-- Dot product of a vector with itself is nonnegative. -/
theorem dotSelfNonneg (u : List ℝ) : 0 ≤ dotL u u := by
  induction u with
  | nil => simp [dotL]
  | cons a u ih =>
    have e : dotL (a :: u) (a :: u) = a * a + dotL u u := by
      simp [dotL]
    rw [e]
    nlinarith [sq_nonneg a]

/-- Cauchy-Schwarz for the list dot product, by induction on both lists. -/
theorem dotSqLe (u : List ℝ) : ∀ v : List ℝ,
    (dotL u v) ^ 2 ≤ dotL u u * dotL v v := by
  induction u with
  | nil => intro v; simp [dotL]
  | cons a u ih =>
    intro v
    cases v with
    | nil => simp [dotL]
    | cons b v =>
      have h := ih v
      have hu := dotSelfNonneg u
      have hv := dotSelfNonneg v
      have e1 : dotL (a :: u) (b :: v) = a * b + dotL u v := by simp [dotL]
      have e2 : dotL (a :: u) (a :: u) = a * a + dotL u u := by simp [dotL]
      have e3 : dotL (b :: v) (b :: v) = b * b + dotL v v := by simp [dotL]
      rw [e1, e2, e3]
      have hx : 0 ≤ a ^ 2 * dotL v v + b ^ 2 * dotL u u :=
        add_nonneg (mul_nonneg (sq_nonneg a) hv) (mul_nonneg (sq_nonneg b) hu)
      have hsq : (2 * a * b * dotL u v) ^ 2 ≤
          (a ^ 2 * dotL v v + b ^ 2 * dotL u u) ^ 2 := by
        nlinarith [sq_nonneg (a ^ 2 * dotL v v - b ^ 2 * dotL u u),
          mul_nonneg (sq_nonneg (a * b)) (sub_nonneg.2 h)]
      have habd : 2 * a * b * dotL u v ≤ a ^ 2 * dotL v v + b ^ 2 * dotL u u := by
        nlinarith [hsq, hx]
      nlinarith [habd, h]

/-- Cosine similarity lies in the closed interval from -1 to 1 (on zero-norm
vectors the division-by-zero convention yields 0, inside the interval). -/
theorem cosSimBounds (u v : List ℝ) : -1 ≤ cosSim u v ∧ cosSim u v ≤ 1 := by
  unfold cosSim normL
  have hCS : (dotL u v) ^ 2 ≤ dotL u u * dotL v v := dotSqLe u v
  have hu := dotSelfNonneg u
  have hv := dotSelfNonneg v
  have habs : |dotL u v| ≤ Real.sqrt (dotL u u) * Real.sqrt (dotL v v) := by
    have h1 : |dotL u v| = Real.sqrt ((dotL u v) ^ 2) :=
      (Real.sqrt_sq_eq_abs (dotL u v)).symm
    rw [h1, ← Real.sqrt_mul hu]
    exact Real.sqrt_le_sqrt hCS
  have hn : 0 ≤ Real.sqrt (dotL u u) * Real.sqrt (dotL v v) :=
    mul_nonneg (Real.sqrt_nonneg _) (Real.sqrt_nonneg _)
  rcases eq_or_lt_of_le hn with hz | hpos
  · rw [← hz, div_zero]
    norm_num
  · constructor
    · rw [le_div_iff₀ hpos]
      have := (abs_le.mp habs).1
      linarith
    · rw [div_le_one hpos]
      exact (abs_le.mp habs).2

/-- The running best of the argmax fold is the start value or a list
element. -/
theorem foldlBestMem (t : List (String × ℝ)) : ∀ acc : String × ℝ,
    t.foldl (fun best p => if p.2 > best.2 then p else best) acc ∈ acc :: t := by
  induction t with
  | nil => intro acc; simp
  | cons p t ih =>
    intro acc
    have hm := ih (if p.2 > acc.2 then p else acc)
    simp only [List.foldl_cons]
    rcases List.mem_cons.mp hm with h1 | h1
    · by_cases hc : p.2 > acc.2
      · rw [h1]
        simp [hc]
      · rw [h1]
        simp [hc]
    · exact List.mem_cons_of_mem _ (List.mem_cons_of_mem _ h1)

/-- Bound transfer through the argmax: if every entry's value sits in the
interval, so does the selected one (the empty fallback value 0 included). -/
theorem argmaxFirstBounds (l : List (String × ℝ))
    (h : ∀ p ∈ l, -1 ≤ p.2 ∧ p.2 ≤ 1) :
    -1 ≤ (argmaxFirst l).2 ∧ (argmaxFirst l).2 ≤ 1 := by
  match l with
  | [] =>
    unfold argmaxFirst
    norm_num
  | p :: t =>
    have hm : argmaxFirst (p :: t) ∈ p :: t := by
      unfold argmaxFirst
      exact foldlBestMem t p
    exact h _ hm

/-- C7 (amended): the confidence attached to every classification lies in
the closed interval from -1 to 1: it is pinned to 1 by a keyword override or
equals a cosine similarity, which Cauchy-Schwarz bounds by 1 in absolute
value; the spec's claimed lower bound 0 is wrong, since the cosine of
adversarial embedding vectors is negative. -/
theorem confidenceBounded (embed : String → List ℝ) (question : String) :
    -1 ≤ (findSubject embed question).2 ∧ (findSubject embed question).2 ≤ 1 := by
  unfold findSubject
  by_cases h1 : mathOverride question
  · simp [h1]
  · by_cases h2 : englishOverride question
    · simp [h1, h2]
    · by_cases h3 : evsOverride question
      · simp [h1, h2, h3]
      · simp only [h1, h2, h3, Bool.false_eq_true, if_false]
        refine argmaxFirstBounds _ (fun p hp => ?_)
        obtain ⟨a, _, rfl⟩ := List.mem_map.mp hp
        exact cosSimBounds _ _

/-- Cosine similarity of opposite unit vectors evaluates to -1. -/
theorem cosOppNeg : cosSim [(-1 : ℝ)] [(1 : ℝ)] = -1 := by
  unfold cosSim normL dotL
  norm_num [Real.sqrt_one]

/-- Classification of the adversarial question under the opposite-vector
embedding: no override fires, every similarity equals -1, and the first
argmax in insertion order yields Math with confidence -1. -/
theorem findOpp : findSubject embedOpp "strange" = ("Math", -1) := by
  have h1 : mathOverride "strange" = false := by decide
  have h2 : englishOverride "strange" = false := by decide
  have h3 : evsOverride "strange" = false := by decide
  have e1 : embedOpp "strange" = [(-1 : ℝ)] := by simp [embedOpp]
  have e2 : ∀ s : String, s ≠ "strange" → embedOpp s = [(1 : ℝ)] :=
    fun s hs => by simp [embedOpp, hs]
  unfold findSubject
  simp only [h1, h2, h3, Bool.false_eq_true, if_false]
  rw [e1]
  rw [subjectTexts]
  simp only [List.map_cons, List.map_nil]
  rw [e2 _ (by decide), e2 _ (by decide), e2 _ (by decide), cosOppNeg]
  unfold argmaxFirst
  simp only [List.foldl_cons, List.foldl_nil]
  norm_num

/-- C7 counterexample: under an embedding service that maps the question to
a vector opposite to every subject vector, the returned confidence is -1,
which violates the claimed interval from 0 to 1. -/
theorem confidenceNegativeCounterexample :
    (findSubject embedOpp "strange").2 = -1 ∧
    ¬(0 ≤ (findSubject embedOpp "strange").2) := by
  constructor
  · rw [findOpp]
  · rw [findOpp]
    norm_num

/-- Persist events distribute over trace concatenation. -/
theorem saveCountAppend (a b : List Event) :
    saveCount (a ++ b) = saveCount a + saveCount b := by
  simp [saveCount, List.filter_append]

/-- PDF-load events distribute over trace concatenation. -/
theorem loadCountAppend (a b : List Event) :
    loadCount (a ++ b) = loadCount a + loadCount b := by
  simp [loadCount, List.filter_append]

/-- Index-build events distribute over trace concatenation. -/
theorem buildCountAppend (a b : List Event) :
    buildCount (a ++ b) = buildCount a + buildCount b := by
  simp [buildCount, List.filter_append]

/-- One agent construction loads one PDF, builds one index and persists it
once. -/
theorem countsInit (s : String) (tmpl : AgentTmpl) :
    saveCount (initEvents s tmpl) = 1 ∧ loadCount (initEvents s tmpl) = 1 ∧
      buildCount (initEvents s tmpl) = 1 := by
  simp [initEvents, saveCount, loadCount, buildCount]

/-- A query run touches retriever and completion service only: it loads,
builds and persists nothing. -/
theorem countsQuery (s : String) (r : QueryResult) :
    saveCount (queryEvents s r) = 0 ∧ loadCount (queryEvents s r) = 0 ∧
      buildCount (queryEvents s r) = 0 := by
  cases hr : r.retrievalCalled <;> cases hl : r.llmCalled <;>
    simp [queryEvents, hr, hl, saveCount, loadCount, buildCount]

/-- Routing-loop invariant: when every registered PDF loads nonempty, the
loop succeeds and its trace holds exactly one persist, one PDF load and one
index build per sub-question whose classified subject is registered. -/
theorem routeListCounts (classify : String → String × ℝ)
    (agents : List (String × AgentTmpl)) (loader : String → List String)
    (retrieve : String → String → List String)
    (llm : String → String → Except String String)
    (hload : ∀ p ∈ agents, loader p.2.pdfPath ≠ []) :
    ∀ subQs : List String,
      ∃ res : List String × List Event,
        routeList classify agents loader retrieve llm subQs = .ok res ∧
        saveCount res.2 =
          (subQs.filter (fun sq => (lookupAgent agents (classify sq).1).isSome)).length ∧
        loadCount res.2 =
          (subQs.filter (fun sq => (lookupAgent agents (classify sq).1).isSome)).length ∧
        buildCount res.2 =
          (subQs.filter (fun sq => (lookupAgent agents (classify sq).1).isSome)).length := by
  intro subQs
  induction subQs with
  | nil => exact ⟨([], []), rfl, rfl, rfl, rfl⟩
  | cons sq rest ih =>
    obtain ⟨res, hres, hs, hl, hb⟩ := ih
    cases hlk : lookupAgent agents (classify sq).1 with
    | none =>
      refine ⟨(("**Error**: " ++ (classify sq).1 ++
          " subject not available. Please upload the PDF.") :: res.1, res.2),
          ?_, ?_, ?_, ?_⟩
      · unfold routeList
        simp [hlk, hres]
      · simp [List.filter_cons, hlk, hs]
      · simp [List.filter_cons, hlk, hl]
      · simp [List.filter_cons, hlk, hb]
    | some tmpl =>
      have hmem : (loader tmpl.pdfPath).isEmpty = false := by
        obtain ⟨p, hp, hp2⟩ := Option.map_eq_some'.mp hlk
        have := hload p (List.mem_of_find?_eq_some hp)
        rw [hp2] at this
        simpa [List.isEmpty_iff] using this
      refine ⟨((confTier (classify sq).2 ++ " **" ++ (classify sq).1 ++ " Answer**:\n" ++
          (query (classify sq).1 (retrieve (classify sq).1) (llm (classify sq).1) [] sq).response) :: res.1,
          initEvents (classify sq).1 tmpl ++
          queryEvents (classify sq).1
            (query (classify sq).1 (retrieve (classify sq).1) (llm (classify sq).1) [] sq) ++
          res.2), ?_, ?_, ?_, ?_⟩
      · unfold routeList
        simp [hlk, hres, hmem]
      · simp [List.filter_cons, hlk, saveCountAppend, (countsInit _ _).1,
          (countsQuery _ _).1, hs]
        omega
      · simp [List.filter_cons, hlk, loadCountAppend, (countsInit _ _).2.1,
          (countsQuery _ _).2.1, hl]
        omega
      · simp [List.filter_cons, hlk, buildCountAppend, (countsInit _ _).2.2,
          (countsQuery _ _).2.2, hb]
        omega

/-- C9: whenever every registered subject's PDF loads nonempty, route
succeeds, and its effect trace persists the subject's index exactly once per
routed sub-question whose classified subject is registered - with the same
count of PDF re-loads and index re-builds - so the stored index is
overwritten on every routed sub-question, not only on upload. -/
theorem rebuildPerSubQuestion (classify : String → String × ℝ)
    (agents : List (String × AgentTmpl)) (loader : String → List String)
    (retrieve : String → String → List String)
    (llm : String → String → Except String String) (question : String)
    (hload : ∀ p ∈ agents, loader p.2.pdfPath ≠ []) :
    ∃ out : String × List Event,
      route classify agents loader retrieve llm question = .ok out ∧
      saveCount out.2 = (registeredSubQs classify agents question).length ∧
      loadCount out.2 = (registeredSubQs classify agents question).length ∧
      buildCount out.2 = (registeredSubQs classify agents question).length := by
  obtain ⟨res, hres, hs, hl, hb⟩ :=
    routeListCounts classify agents loader retrieve llm hload (splitQuestions question)
  refine ⟨(joinStr "\n\n---\n\n" res.1, res.2), ?_, hs, hl, hb⟩
  unfold route
  rw [hres]

/-- C9 witness: a two-part question routed to two registered subjects
persists two index rebuilds. -/
theorem rebuildPerSubQuestionWitness :
    (registeredSubQs classifyKw agentsME "solve this and read that").length = 2 ∧
    ∃ out : String × List Event,
      route classifyKw agentsME loaderOne retr2Empty llm2Plain
          "solve this and read that" = .ok out ∧
      saveCount out.2 =
        (registeredSubQs classifyKw agentsME "solve this and read that").length ∧
      loadCount out.2 =
        (registeredSubQs classifyKw agentsME "solve this and read that").length ∧
      buildCount out.2 =
        (registeredSubQs classifyKw agentsME "solve this and read that").length :=
  ⟨by decide,
   rebuildPerSubQuestion classifyKw agentsME loaderOne retr2Empty llm2Plain
     "solve this and read that" (fun p _ => by simp [loaderOne])⟩
